import Mathlib

/-!
Verification development for the heart-attack-prediction pipeline.

Shallow embedding of:
  * `preprocess_row` and `load_feature_list`     (src/lambda/lambda_function.py)
  * `lambda_handler`                              (src/lambda/lambda_function.py)
  * `preprocess_health_data` on a one-row table   (src/sagemaker/preprocess.py)
  * the aggregation / join job                    (src/emr/main.py)
  * configuration constants                       (src/lambda/config.py)

Conventions of the embedding:
  * A raw CSV row (a Python dict produced by `csv.DictReader`, or one row of a
    dataframe) is a `Record`: an ordered association list from column name to
    string value.
  * A dataframe cell during preprocessing is a `Cell`: still a string, or a
    numeric value where `Cell.num none` stands for pandas NaN.
  * Machine floats are modelled by `ℚ`; every decimal literal appearing in the
    sources and claims is exactly representable, and the comparisons performed
    by the code (`>` against the threshold) agree with the rational order.
  * Fallible code (pandas `KeyError`, S3 `NoSuchKey`, Python `ValueError`)
    returns `Except RunError`.
-/

/-- Errors the pipeline can raise: a missing S3 object, a pandas column
`KeyError`, or a Python `float()` parse failure. -/
inductive RunError where
  | noSuchKey (key : String)
  | keyError (col : String)
  | valueError
deriving DecidableEq, Repr

/-- One raw row: ordered (column name, string value) pairs, as produced by
`csv.DictReader` (keys are distinct in the real input; first occurrence wins
in lookups). -/
abbrev Record := List (String × String)

/-- A dataframe cell mid-preprocessing: an untouched string column, or a
numeric column where `num none` is pandas NaN. -/
inductive Cell where
  | str (s : String)
  | num (q : Option ℚ)
deriving DecidableEq, Repr

/-- A one-row dataframe: ordered (column name, cell) pairs. -/
abbrev Df := List (String × Cell)

/-- Column lookup by name (first occurrence), i.e. `df[c]` / `row[c]`. -/
def lookupCol (c : String) : List (String × α) → Option α
  | [] => none
  | p :: ps => if p.1 = c then some p.2 else lookupCol c ps

/-- `df[c] = v` in pandas: overwrite the column in place if present,
otherwise append it at the end. -/
def setCol (c : String) (v : α) (df : List (String × α)) : List (String × α) :=
  if (lookupCol c df).isSome then
    df.map (fun p => if p.1 = c then (c, v) else p)
  else
    df ++ [(c, v)]

/-- `df.drop(columns=L, errors="ignore")`: remove the listed columns,
keeping the order of the rest. -/
def dropCols (L : List String) (df : List (String × α)) : List (String × α) :=
  df.filter (fun p => ¬ p.1 ∈ L)

/-! ### Character-level models of the Python string primitives

The Python string operations the pipeline uses (`strip`, `lower`,
`splitlines`, `endswith`, `split`) are modelled directly on character
lists. -/

/-- Python `str.strip()` on a character list. -/
def stripChars (l : List Char) : List Char :=
  ((l.dropWhile Char.isWhitespace).reverse.dropWhile Char.isWhitespace).reverse

/-- Python `str.lower()` on one (ASCII) character. -/
def lowerChar (c : Char) : Char :=
  if 'A' ≤ c ∧ c ≤ 'Z' then Char.ofNat (c.toNat + 32) else c

/-- Python `str.lower()`. -/
def lowerStr (s : String) : String := String.mk (s.toList.map lowerChar)

/-- Python `str.strip()`. -/
def pyStrip (s : String) : String := String.mk (stripChars s.toList)

/-- Split a character list at every occurrence of a separator. -/
def splitOnChar (sep : Char) : List Char → List (List Char)
  | [] => [[]]
  | c :: cs =>
    match splitOnChar sep cs with
    | [] => if c = sep then [[], []] else [[c]]
    | h :: t => if c = sep then [] :: h :: t else (c :: h) :: t

/-- Python `str.splitlines()` on newline-separated text. -/
def splitLines (s : String) : List String :=
  (splitOnChar '\n' s.toList).map String.mk

/-- Python `str.endswith(suffix)`. -/
def strEndsWith (s suffix : String) : Bool :=
  suffix.toList.isSuffixOf s.toList

/-! ### Numeric parsing (`pd.to_numeric(errors="coerce")` / `float`)

Model of the decimal fragment of Python float parsing: optional sign, digits
with at most one dot (at least one digit), optional exponent.  Special float
spellings (`inf`, `nan`) are outside the modelled fragment; no input in this
development uses them. -/

/-- Value of a digit string. -/
def digitsVal (l : List Char) : ℕ :=
  l.foldl (fun a c => a * 10 + (c.toNat - 48)) 0

/-- Parse an unsigned decimal mantissa: `123`, `123.45`, `123.`, `.45`. -/
def parseDecimal (l : List Char) : Option ℚ :=
  let ip := l.takeWhile Char.isDigit
  let rest := l.drop ip.length
  match rest with
  | [] => if ip.isEmpty then none else some (digitsVal ip : ℚ)
  | '.' :: fp =>
    if fp.all Char.isDigit && !(ip.isEmpty && fp.isEmpty) then
      some ((digitsVal ip : ℚ) + (digitsVal fp : ℚ) / (10 : ℚ) ^ fp.length)
    else none
  | _ => none

/-- Strip an optional leading sign; `true` means negative. -/
def parseSign : List Char → Bool × List Char
  | '-' :: t => (true, t)
  | '+' :: t => (false, t)
  | l => (false, l)

/-- Parse a signed integer exponent. -/
def parseExpPart (l : List Char) : Option ℤ :=
  let (neg, t) := parseSign l
  if t.isEmpty || !t.all Char.isDigit then none
  else some (if neg then -(digitsVal t : ℤ) else (digitsVal t : ℤ))

/-- `pd.to_numeric(s, errors="coerce")` / `float(s)` on a string:
`none` is NaN (coerce) or `ValueError` (float). -/
def toNumeric (s : String) : Option ℚ :=
  let l := stripChars s.toList
  let sl := parseSign l
  let m := sl.2.takeWhile (fun c => !(c = 'e' || c = 'E'))
  let rest := sl.2.drop m.length
  let mag : Option ℚ :=
    match rest with
    | [] => parseDecimal m
    | _ :: expPart =>
      match parseDecimal m, parseExpPart expPart with
      | some q, some e => some (q * (10 : ℚ) ^ e)
      | _, _ => none
  mag.map (fun q => if sl.1 then -q else q)

/-! ### The preprocessing pipeline of `preprocess_row` -/

/-- `series.astype(str)` on one cell.  Cells reaching this in the claims are
always strings; `str()` of an integral float is rendered exactly, the
non-integral rendering is outside the exercised fragment. -/
def cellAsStr : Cell → String
  | .str s => s
  | .num none => "nan"
  | .num (some q) => toString q.num

/-- `s.split("/", n=1)` as pandas sees it on one value: the part before the
first `/`, and the rest (`none` when no `/` occurs, in which case the
expanded split frame has no column 1). -/
def splitOnce (s : String) : String × Option String :=
  let l := s.toList
  let before := l.takeWhile (fun c => c ≠ '/')
  match l.drop before.length with
  | [] => (String.mk before, none)
  | _ :: after => (String.mk before, some (String.mk after))

/-- The Blood-Pressure split (identical lines in `preprocess_row` and
`preprocess_health_data`): if the column exists, split once on `/`, coerce
the two parts to numbers as new columns, drop the original.  On a one-row
frame a value with no `/` leaves the expanded split with a single column,
so `bp[1]` raises `KeyError: 1`. -/
def bpStep (df : Df) : Except RunError Df :=
  match lookupCol "Blood Pressure" df with
  | none => .ok df
  | some cell =>
    let sp := splitOnce (cellAsStr cell)
    match sp.2 with
    | none => .error (.keyError "1")
    | some p1 =>
      .ok (dropCols ["Blood Pressure"]
        (setCol "BP_Diastolic" (.num (toNumeric p1))
          (setCol "BP_Systolic" (.num (toNumeric sp.1)) df)))

/-- The identifier columns dropped by both preprocessing paths. -/
def idCols : List String := ["Patient ID", "Country", "Continent", "Hemisphere"]

/-- Manual one-hot encoding of `preprocess_row`: reads `df["Sex"]` and
`df["Diet"]` (raising `KeyError` when absent), writes the three indicator
columns, drops the originals. -/
def encodeStep (df : Df) : Except RunError Df :=
  match lookupCol "Sex" df with
  | none => .error (.keyError "Sex")
  | some sexCell =>
    let df := setCol "Sex_Male"
      (.num (some (if lowerStr (cellAsStr sexCell) = "male" then 1 else 0))) df
    match lookupCol "Diet" df with
    | none => .error (.keyError "Diet")
    | some dietCell =>
      let dl := lowerStr (cellAsStr dietCell)
      let df := setCol "Diet_Healthy" (.num (some (if dl = "healthy" then 1 else 0))) df
      let df := setCol "Diet_Unhealthy" (.num (some (if dl = "unhealthy" then 1 else 0))) df
      .ok (dropCols ["Sex", "Diet"] df)

/-- `df.apply(pd.to_numeric, errors="coerce").fillna(0)`: every cell becomes a
number, with unparsable and missing values becoming 0. -/
def coerceFill : Cell → ℚ
  | .str s => (toNumeric s).getD 0
  | .num q => q.getD 0

/-- Coercion step applied to the whole one-row frame. -/
def coerceStep (df : Df) : List (String × ℚ) :=
  df.map (fun p => (p.1, coerceFill p.2))

/-- Alignment with the training feature list: add every expected column that
is missing (value 0), then select the expected columns in order. -/
def alignStep (expected : List String) (d : List (String × ℚ)) : List (String × ℚ) :=
  let d := expected.foldl
    (fun acc c => if (lookupCol c acc).isSome then acc else acc ++ [(c, (0 : ℚ))]) d
  expected.map (fun c => (c, (lookupCol c d).getD 0))

/-- `preprocess_row(df_row, expected_features)` from
src/lambda/lambda_function.py: BP split, drop identifiers, manual one-hot
encoding of Sex and Diet, numeric coercion with 0-fill, alignment with the
expected feature list. -/
def preprocess_row (row : Record) (expected : List String) :
    Except RunError (List (String × ℚ)) :=
  match bpStep (row.map (fun p => (p.1, Cell.str p.2))) with
  | .error e => .error e
  | .ok d1 =>
    let d2 := dropCols idCols d1
    match encodeStep d2 with
    | .error e => .error e
    | .ok d3 => .ok (alignStep expected (coerceStep d3))

/-! ### `preprocess_health_data` on a one-row table -/

/-- Dtype inference when a one-row table is built from a raw record
(`pd.read_csv` style): a value parsing as a number becomes a numeric cell,
anything else stays an object (string) cell. -/
def inferCell (v : String) : Cell :=
  match toNumeric v with
  | some q => .num (some q)
  | none => .str v

/-- The one-row dataframe a raw record denotes on the training path. -/
def toOneRowTable (r : Record) : Df :=
  r.map (fun p => (p.1, inferCell p.2))

/-- `pd.get_dummies(df, drop_first=True).fillna(0)` restricted to a one-row
frame: each object column has exactly one observed category, which
`drop_first=True` removes, so object columns vanish entirely; numeric
columns pass through with NaN filled by 0. -/
def getDummiesOneRow (df : Df) : List (String × ℚ) :=
  df.filterMap (fun p =>
    match p.2 with
    | .str _ => none
    | .num q => some (p.1, q.getD 0))

/-- `preprocess_health_data(df)` from src/sagemaker/preprocess.py, applied to
the one-row table denoted by a raw record (the form in which the claims
compare it with `preprocess_row`): the same BP split and identifier drop,
then `get_dummies(drop_first=True).fillna(0)` — no numeric coercion and no
feature-list alignment. -/
def preprocess_health_data_one (row : Record) :
    Except RunError (List (String × ℚ)) :=
  match bpStep (toOneRowTable row) with
  | .error e => .error e
  | .ok d1 => .ok (getDummiesOneRow (dropCols idCols d1))

/-! ### Configuration constants (src/lambda/config.py) -/

def FEATURE_LIST_KEY : String := "preprocess/feature_list.txt"

def ALERT_THRESHOLD : ℚ := 45 / 100

def MAX_ROWS_TO_PROCESS : ℕ := 50

/-! ### `load_feature_list` and `lambda_handler` -/

/-- `load_feature_list()` given the S3 object at `FEATURE_LIST_KEY` (`none`
when the object is absent, in which case `get_object` raises `NoSuchKey`
and the failure propagates — there is no fallback): split into lines, strip
whitespace, drop blanks, remove the first occurrence of the target label if
present. -/
def load_feature_list (obj : Option String) : Except RunError (List String) :=
  match obj with
  | none => .error (.noSuchKey FEATURE_LIST_KEY)
  | some body =>
    let features := ((splitLines body).map pyStrip).filter (fun f => f ≠ "")
    .ok (features.erase "Heart Attack Risk")

/-- `round` with the Python banker rounding (ties to even), on an exact value. -/
def roundHalfEven (x : ℚ) : ℤ :=
  let f := ⌊x⌋
  let frac := x - f
  if frac < 1/2 then f
  else if 1/2 < frac then f + 1
  else if f % 2 = 0 then f else f + 1

/-- Python `round(x, n)`. -/
def pyRound (x : ℚ) (n : ℕ) : ℚ :=
  (roundHalfEven (x * 10 ^ n) : ℚ) / 10 ^ n

/-- The status label attached to every scored row:
`"HIGH_RISK" if score > ALERT_THRESHOLD else "LOW_RISK"`. -/
def riskStatus (score threshold : ℚ) : String :=
  if threshold < score then "HIGH_RISK" else "LOW_RISK"

/-- One line of the alert details accumulated by the handler. -/
structure Alert where
  patient_id : String
  risk_score : ℚ
deriving DecidableEq, Repr

/-- One line of the prediction summary written to S3. -/
structure Prediction where
  patient_id : String
  risk : ℚ
  risk_status : String
deriving DecidableEq, Repr

/-- The structured value returned by the handler: the 404-style error body
when no CSV exists, or the 200 summary. -/
inductive Response where
  | notFound
  | summary (processed_rows : ℕ) (alerts_triggered : ℕ)
      (alert_details : List Alert) (all_scores : List ℚ)
deriving DecidableEq, Repr

/-- External world of one handler invocation: the feature-list object (absent
= `none`), the keys listed under the processed prefix, the parsed rows of
each CSV object, the scoring endpoint (raw response text per payload), and
whether `sns.publish` succeeds. -/
structure Env where
  featureListBody : Option String
  listing : List String
  csvTable : String → List Record
  endpoint : List ℚ → String
  snsOk : Bool

/-- Result of a run: the response, the `sns.publish` calls made (count of
flagged patients together with their details), and those that succeeded. -/
structure RunOutput where
  response : Response
  snsAttempts : List (ℕ × List Alert)
  snsDelivered : List (ℕ × List Alert)
deriving DecidableEq, Repr

/-- The body of the per-row loop: resolve the patient id, preprocess (a
pandas error propagates), invoke the endpoint, and when the response is
nonempty parse the score (`float` raising on junk), record it, and append
an alert when the score strictly exceeds the threshold. -/
def scoreOne (endpoint : List ℚ → String) (expected : List String)
    (acc : List ℚ × List Prediction × List Alert) (p : ℕ × Record) :
    Except RunError (List ℚ × List Prediction × List Alert) :=
  let patient_id := (lookupCol "Patient ID" p.2).getD ("Row" ++ toString (p.1 + 1))
  match preprocess_row p.2 expected with
  | .error e => .error e
  | .ok df_row =>
    let raw := endpoint (df_row.map Prod.snd)
    if raw = "" then .ok acc
    else
      match toNumeric raw with
      | none => .error .valueError
      | some score =>
        .ok (acc.1 ++ [score],
             acc.2.1 ++ [⟨patient_id, pyRound score 6, riskStatus score ALERT_THRESHOLD⟩],
             if ALERT_THRESHOLD < score then
               acc.2.2 ++ [⟨patient_id, pyRound score 3⟩]
             else acc.2.2)

/-- The row loop of the handler over the first `MAX_ROWS_TO_PROCESS` rows. -/
def scoreRows (endpoint : List ℚ → String) (expected : List String)
    (rows : List Record) :
    Except RunError (List ℚ × List Prediction × List Alert) :=
  rows.enum.foldlM (fun acc p => scoreOne endpoint expected acc p) ([], [], [])

/-- `lambda_handler` from src/lambda/lambda_function.py: load the feature
list (a missing object propagates), pick the first `.csv` key of the
listing (404-style response when there is none), score up to
`MAX_ROWS_TO_PROCESS` rows, and when at least one alert fired make exactly
one `sns.publish` call with all flagged patients; a publish failure is
caught and logged, so it never affects the returned summary (which reports
the total row count of the file, not the capped count). -/
def lambda_handler (env : Env) : Except RunError RunOutput :=
  match load_feature_list env.featureListBody with
  | .error e => .error e
  | .ok expected =>
    match env.listing.filter (fun k => strEndsWith k ".csv") with
    | [] => .ok ⟨.notFound, [], []⟩
    | csv_key :: _ =>
      let rows := env.csvTable csv_key
      match scoreRows env.endpoint expected (rows.take MAX_ROWS_TO_PROCESS) with
      | .error e => .error e
      | .ok acc =>
        let alerts := acc.2.2.length
        let attempts := if 0 < alerts then [(alerts, acc.2.2)] else []
        .ok ⟨.summary rows.length alerts acc.2.2 acc.1,
             attempts,
             if env.snsOk then attempts else []⟩

/-! ### The EMR aggregation job (src/emr/main.py) -/

/-- One row of the simulated-vitals table. -/
structure SimRow where
  patientId : String
  heartRate : ℚ
  bpSystolic : ℚ
  bpDiastolic : ℚ
  sleepHours : ℚ
  physicalActivity : ℚ
deriving DecidableEq, Repr

/-- Spark `round(x, 0)`: HALF_UP, away from zero on ties. -/
def roundHalfUp (x : ℚ) : ℤ :=
  if 0 ≤ x then ⌊x + 1/2⌋ else -⌊-x + 1/2⌋

/-- Spark `round(x, n)` as a rational. -/
def roundHalfUpTo (n : ℕ) (x : ℚ) : ℚ :=
  (roundHalfUp (x * 10 ^ n) : ℚ) / 10 ^ n

/-- Mean of a list of rationals (`avg`; groups are never empty). -/
def listMean (l : List ℚ) : ℚ := l.sum / l.length

/-- One aggregated row of the weekly table. -/
structure AggRow where
  patientId : String
  heartRate : ℚ
  sleepHours : ℚ
  activityDays : ℚ
  bloodPressure : String
deriving DecidableEq, Repr

/-- The readings of one entity in the simulated table. -/
def groupOf (sim : List SimRow) (pid : String) : List SimRow :=
  sim.filter (fun s => s.patientId = pid)

/-- The aggregation of `sim.groupBy("Patient ID").agg(...)` for one entity:
rounded mean heart rate (0 decimals), rounded mean pressures combined into
`"sys/dia"`, rounded mean sleep (2 decimals), summed activity indicator. -/
def aggRow (sim : List SimRow) (pid : String) : AggRow :=
  let g := groupOf sim pid
  { patientId := pid
    heartRate := (roundHalfUp (listMean (g.map (fun s => s.heartRate))) : ℚ)
    sleepHours := roundHalfUpTo 2 (listMean (g.map (fun s => s.sleepHours)))
    activityDays := (g.map (fun s => s.physicalActivity)).sum
    bloodPressure :=
      toString (roundHalfUp (listMean (g.map (fun s => s.bpSystolic)))) ++ "/" ++
      toString (roundHalfUp (listMean (g.map (fun s => s.bpDiastolic)))) }

/-- The distinct entity ids of the simulated table (the groups of the
aggregation; their order in the engine is unspecified). -/
def aggIds (sim : List SimRow) : List String :=
  (sim.map (fun s => s.patientId)).dedup

/-- `hist.drop(...)`: the historical table cleaned of its vitals snapshot
and target label. -/
def histClean (hist : List Record) : List Record :=
  hist.map (fun h =>
    dropCols ["Heart Rate", "Blood Pressure", "Sleep Hours Per Day",
              "Physical Activity Days Per Week", "Heart Attack Risk"] h)

/-- `agg.join(hist_clean, on="Patient ID", how="left")`: one output row per
aggregated row and matching cleaned historical row, with `none` for the
historical side when no match exists.  Driven entirely by the aggregated
(simulated) side. -/
def finalJoin (sim : List SimRow) (hist : List Record) :
    List (AggRow × Option Record) :=
  (aggIds sim).flatMap (fun pid =>
    let a := aggRow sim pid
    match (histClean hist).filter (fun h => lookupCol "Patient ID" h = some pid) with
    | [] => [(a, none)]
    | ms => ms.map (fun m => (a, some m)))

/-! ### Derived notions used in the statements -/

/-- The Blood-Pressure field is absent, or contains a `/` (the condition
under which the split step does not raise `KeyError: 1`). -/
def bpOk (r : Record) : Bool :=
  match lookupCol "Blood Pressure" r with
  | none => true
  | some v => (splitOnce v).2.isSome

/-- The raw `Sex` value of a record (records reaching the encoder have one). -/
def sexStr (r : Record) : String := (lookupCol "Sex" r).getD ""

/-- The raw `Diet` value of a record. -/
def dietStr (r : Record) : String := (lookupCol "Diet" r).getD ""

/-- Closed form of the value the `preprocess_row` pipeline associates to a
column name just before alignment (`none` = the column is absent at that
point), for a record on which no step raises. -/
def pipelineVal (r : Record) (c : String) : Option ℚ :=
  if c ∈ ["Sex", "Diet"] then none
  else if c = "Diet_Unhealthy" then
    some (if lowerStr (dietStr r) = "unhealthy" then 1 else 0)
  else if c = "Diet_Healthy" then
    some (if lowerStr (dietStr r) = "healthy" then 1 else 0)
  else if c = "Sex_Male" then
    some (if lowerStr (sexStr r) = "male" then 1 else 0)
  else if c ∈ idCols then none
  else
    match lookupCol "Blood Pressure" r with
    | none => (lookupCol c r).map (fun v => (toNumeric v).getD 0)
    | some v =>
      if c = "Blood Pressure" then none
      else if c = "BP_Diastolic" then some ((toNumeric ((splitOnce v).2.getD "")).getD 0)
      else if c = "BP_Systolic" then some ((toNumeric (splitOnce v).1).getD 0)
      else (lookupCol c r).map (fun w => (toNumeric w).getD 0)

/-- Closed form of the columns after the Blood-Pressure step (for a record on
which the step does not raise). -/
def bpView (r : Record) (c : String) : Option Cell :=
  match lookupCol "Blood Pressure" r with
  | none => (lookupCol c r).map Cell.str
  | some v =>
    if c = "Blood Pressure" then none
    else if c = "BP_Diastolic" then some (.num (toNumeric ((splitOnce v).2.getD "")))
    else if c = "BP_Systolic" then some (.num (toNumeric (splitOnce v).1))
    else (lookupCol c r).map Cell.str

/-! ## Lemmas about the list-of-columns operations -/

theorem lookupCol_map_snd (f : α → β) (c : String) (l : List (String × α)) :
    lookupCol c (l.map (fun p => (p.1, f p.2))) = (lookupCol c l).map f := by
  induction l with
  | nil => rfl
  | cons p ps ih => by_cases h : p.1 = c <;> simp [lookupCol, h, ih]

theorem lookupCol_append (x : String) (a b : List (String × α)) :
    lookupCol x (a ++ b) =
      match lookupCol x a with
      | some v => some v
      | none => lookupCol x b := by
  induction a with
  | nil => rfl
  | cons p ps ih => by_cases h : p.1 = x <;> simp [lookupCol, h, ih]

theorem lookupCol_replace_ne (c x : String) (v : α) (df : List (String × α))
    (hx : x ≠ c) :
    lookupCol x (df.map (fun p => if p.1 = c then (c, v) else p)) =
      lookupCol x df := by
  induction df with
  | nil => rfl
  | cons p ps ih =>
    by_cases h1 : p.1 = c
    · have hcx : ¬ c = x := fun h => hx h.symm
      have hpx : ¬ p.1 = x := by rw [h1]; exact hcx
      simp [lookupCol, h1, hcx, hpx, ih]
    · by_cases h2 : p.1 = x
      · simp [lookupCol, h1, h2, hx, ih]
      · simp [lookupCol, h1, h2, ih]

theorem lookupCol_replace_eq (c : String) (v : α) (df : List (String × α))
    (hp : (lookupCol c df).isSome) :
    lookupCol c (df.map (fun p => if p.1 = c then (c, v) else p)) = some v := by
  induction df with
  | nil => simp [lookupCol] at hp
  | cons p ps ih =>
    by_cases h1 : p.1 = c
    · simp [lookupCol, h1]
    · simp only [lookupCol, h1, if_false] at hp
      simp [lookupCol, h1, ih hp]

theorem lookupCol_setCol (c x : String) (v : α) (df : List (String × α)) :
    lookupCol x (setCol c v df) = if x = c then some v else lookupCol x df := by
  unfold setCol
  by_cases hp : (lookupCol c df).isSome
  · by_cases h2 : x = c
    · rw [h2, if_pos rfl, if_pos hp, lookupCol_replace_eq c v df hp]
    · rw [if_pos hp, if_neg h2, lookupCol_replace_ne c x v df h2]
  · simp only [hp, Bool.false_eq_true, if_false]
    rw [lookupCol_append]
    by_cases h2 : x = c
    · subst h2
      rcases h : lookupCol x df with _ | w
      · simp [lookupCol]
      · rw [h] at hp; simp at hp
    · rcases h : lookupCol x df with _ | w
      · have hcx : ¬ c = x := fun hh => h2 hh.symm
        simp [lookupCol, hcx, h2, h]
      · simp [h2, h]

theorem lookupCol_dropCols (L : List String) (x : String) (df : List (String × α)) :
    lookupCol x (dropCols L df) = if x ∈ L then none else lookupCol x df := by
  induction df with
  | nil => by_cases h : x ∈ L <;> simp [dropCols, lookupCol, h]
  | cons p ps ih =>
    by_cases h1 : p.1 ∈ L
    · by_cases h2 : x ∈ L
      · simp [dropCols, List.filter_cons, h1, h2, lookupCol] at ih ⊢
        simpa [h2] using ih
      · have hpx : ¬ p.1 = x := fun hh => h2 (hh ▸ h1)
        simp [dropCols, List.filter_cons, h1, h2, hpx, lookupCol] at ih ⊢
        simpa [h2] using ih
    · by_cases h2 : x ∈ L
      · have hpx : ¬ p.1 = x := fun hh => h1 (hh ▸ h2)
        simp [dropCols, List.filter_cons, h1, h2, hpx, lookupCol] at ih ⊢
        simpa [h2] using ih
      · by_cases h3 : p.1 = x
        · simp [dropCols, List.filter_cons, h1, h2, h3, lookupCol]
        · simp [dropCols, List.filter_cons, h1, h2, h3, lookupCol] at ih ⊢
          simpa [h2] using ih

theorem lookupCol_map_self (g : String → ℚ) (c : String) (F : List String) :
    lookupCol c (F.map (fun n => (n, g n))) =
      if c ∈ F then some (g c) else none := by
  induction F with
  | nil => rfl
  | cons n ns ih =>
    by_cases h : n = c
    · subst h; simp [lookupCol]
    · simp [lookupCol, h, ih, Ne.symm h]

theorem alignFold_lookup (F : List String) (d : List (String × ℚ)) (x : String) :
    lookupCol x
        (F.foldl (fun acc c =>
          if (lookupCol c acc).isSome then acc else acc ++ [(c, (0 : ℚ))]) d) =
      match lookupCol x d with
      | some v => some v
      | none => if x ∈ F then some 0 else none := by
  induction F generalizing d with
  | nil => rcases h : lookupCol x d with _ | v <;> simp [h]
  | cons c cs ih =>
    simp only [List.foldl_cons]
    rw [ih]
    by_cases hc : (lookupCol c d).isSome
    · simp only [hc, if_true]
      rcases h : lookupCol x d with _ | v
      · by_cases hx : x = c
        · subst hx; rw [h] at hc; simp at hc
        · simp [List.mem_cons, hx]
      · rfl
    · simp only [hc, Bool.false_eq_true, if_false]
      rw [lookupCol_append]
      rcases h : lookupCol x d with _ | v
      · by_cases hx : x = c
        · subst hx; simp [lookupCol]
        · have hcx : ¬ c = x := fun hh => hx hh.symm
          simp [lookupCol, hcx, hx, List.mem_cons]
      · rfl

theorem alignStep_eq (F : List String) (d : List (String × ℚ)) :
    alignStep F d = F.map (fun c => (c, (lookupCol c d).getD 0)) := by
  unfold alignStep
  refine List.map_congr_left (fun c hc => ?_)
  rw [alignFold_lookup]
  rcases h : lookupCol c d with _ | v <;> simp [hc]

theorem getDummiesOneRow_cons (p : String × Cell) (ps : Df) :
    getDummiesOneRow (p :: ps) =
      (match p.2 with
       | .str _ => []
       | .num q => [(p.1, q.getD 0)]) ++ getDummiesOneRow ps := by
  rcases p with ⟨n, s | q⟩ <;> simp [getDummiesOneRow]

theorem lookupCol_getDummies_num (df : Df) (c : String) (q : Option ℚ)
    (h : lookupCol c df = some (.num q)) :
    lookupCol c (getDummiesOneRow df) = some (q.getD 0) := by
  induction df with
  | nil => simp [lookupCol] at h
  | cons p ps ih =>
    rw [getDummiesOneRow_cons]
    by_cases h1 : p.1 = c
    · simp only [lookupCol, h1, if_true] at h
      rcases p with ⟨n, s | qq⟩
      · simp at h
      · simp only at h
        obtain rfl : qq = q := by injection h with h'; injection h'
        simp only at h1
        simp [lookupCol, h1]
    · simp only [lookupCol, h1, if_false] at h
      rcases p with ⟨n, s | qq⟩
      · simpa using ih h
      · simp only at h1
        simp [lookupCol, h1, ih h]

theorem lookupCol_getDummies_none (df : Df) (c : String)
    (h : lookupCol c df = none) :
    lookupCol c (getDummiesOneRow df) = none := by
  induction df with
  | nil => rfl
  | cons p ps ih =>
    rw [getDummiesOneRow_cons]
    by_cases h1 : p.1 = c
    · simp [lookupCol, h1] at h
    · simp only [lookupCol, h1, if_false] at h
      rcases p with ⟨n, s | qq⟩
      · simpa using ih h
      · simp only at h1
        simp [lookupCol, h1, ih h]

theorem bpStep_ok (r : Record) (hbp : bpOk r = true) :
    ∃ d1, bpStep (r.map (fun p => (p.1, Cell.str p.2))) = .ok d1 ∧
      ∀ c, lookupCol c d1 = bpView r c := by
  have hd0 : ∀ c, lookupCol c (r.map (fun p => (p.1, Cell.str p.2))) =
      (lookupCol c r).map Cell.str := fun c => lookupCol_map_snd _ c r
  rcases hBP : lookupCol "Blood Pressure" r with _ | v
  · refine ⟨r.map (fun p => (p.1, Cell.str p.2)), ?_, ?_⟩
    · unfold bpStep
      rw [hd0, hBP]
      dsimp only [Option.map]
    · intro c
      rw [hd0]
      unfold bpView
      rw [hBP]
  · unfold bpOk at hbp
    rw [hBP] at hbp
    obtain ⟨t, ht⟩ := Option.isSome_iff_exists.mp hbp
    refine ⟨dropCols ["Blood Pressure"]
        (setCol "BP_Diastolic" (.num (toNumeric t))
          (setCol "BP_Systolic" (.num (toNumeric (splitOnce v).1))
            (r.map (fun p => (p.1, Cell.str p.2))))), ?_, ?_⟩
    · unfold bpStep
      rw [hd0, hBP]
      dsimp only [Option.map, cellAsStr]
      rw [ht]
    · intro c
      rw [lookupCol_dropCols]
      unfold bpView
      rw [hBP]
      dsimp only []
      by_cases h1 : c = "Blood Pressure"
      · simp [h1]
      · have h1' : ¬ c ∈ ["Blood Pressure"] := by simp [h1]
        rw [if_neg h1', if_neg h1, lookupCol_setCol, lookupCol_setCol, hd0, ht]
        by_cases h2 : c = "BP_Diastolic"
        · simp [h2]
        · rw [if_neg h2, if_neg h2]

theorem encode_coerce_lookup (r : Record) (d1 : Df) (sexv dietv : String)
    (hSex : lookupCol "Sex" r = some sexv) (hDiet : lookupCol "Diet" r = some dietv)
    (hlook : ∀ c, lookupCol c d1 = bpView r c) :
    ∃ d3, encodeStep (dropCols idCols d1) = .ok d3 ∧
      ∀ c, lookupCol c (coerceStep d3) = pipelineVal r c := by
  have hSexView : bpView r "Sex" = some (Cell.str sexv) := by
    unfold bpView
    rcases lookupCol "Blood Pressure" r with _ | v <;> simp [hSex]
  have hDietView : bpView r "Diet" = some (Cell.str dietv) := by
    unfold bpView
    rcases lookupCol "Blood Pressure" r with _ | v <;> simp [hDiet]
  have hSexd : lookupCol "Sex" (dropCols idCols d1) = some (Cell.str sexv) := by
    rw [lookupCol_dropCols]
    have h : ¬ "Sex" ∈ idCols := by simp [idCols]
    rw [if_neg h, hlook, hSexView]
  have hDietd : lookupCol "Diet"
      (setCol "Sex_Male" (Cell.num (some (if lowerStr sexv = "male" then 1 else 0)))
        (dropCols idCols d1)) = some (Cell.str dietv) := by
    rw [lookupCol_setCol]
    have h1 : ¬ "Diet" = "Sex_Male" := by simp
    rw [if_neg h1, lookupCol_dropCols]
    have h2 : ¬ "Diet" ∈ idCols := by simp [idCols]
    rw [if_neg h2, hlook, hDietView]
  refine ⟨dropCols ["Sex", "Diet"]
      (setCol "Diet_Unhealthy" (Cell.num (some (if lowerStr dietv = "unhealthy" then 1 else 0)))
        (setCol "Diet_Healthy" (Cell.num (some (if lowerStr dietv = "healthy" then 1 else 0)))
          (setCol "Sex_Male" (Cell.num (some (if lowerStr sexv = "male" then 1 else 0)))
            (dropCols idCols d1)))), ?_, ?_⟩
  · unfold encodeStep
    rw [hSexd]
    dsimp only [cellAsStr]
    rw [hDietd]
  · intro c
    unfold coerceStep
    rw [lookupCol_map_snd]
    unfold pipelineVal
    rw [lookupCol_dropCols]
    by_cases h1 : c ∈ ["Sex", "Diet"]
    · simp [h1]
    · rw [if_neg h1, if_neg h1, lookupCol_setCol]
      by_cases h2 : c = "Diet_Unhealthy"
      · simp [h2, dietStr, hDiet, coerceFill]
      · rw [if_neg h2, if_neg h2, lookupCol_setCol]
        by_cases h3 : c = "Diet_Healthy"
        · simp [h3, dietStr, hDiet, coerceFill]
        · rw [if_neg h3, if_neg h3, lookupCol_setCol]
          by_cases h4 : c = "Sex_Male"
          · simp [h4, sexStr, hSex, coerceFill]
          · rw [if_neg h4, if_neg h4, lookupCol_dropCols]
            by_cases h5 : c ∈ idCols
            · simp [h5]
            · rw [if_neg h5, if_neg h5, hlook]
              unfold bpView
              rcases lookupCol "Blood Pressure" r with _ | v
              · rcases lookupCol c r with _ | w <;> simp [coerceFill]
              · dsimp only []
                by_cases h6 : c = "Blood Pressure"
                · simp [h6]
                · rw [if_neg h6, if_neg h6]
                  by_cases h7 : c = "BP_Diastolic"
                  · simp [h7, coerceFill]
                  · rw [if_neg h7, if_neg h7]
                    by_cases h8 : c = "BP_Systolic"
                    · simp [h8, coerceFill]
                    · rw [if_neg h8, if_neg h8]
                      rcases lookupCol c r with _ | w <;> simp [coerceFill]

theorem preprocess_row_ok (r : Record) (F : List String)
    (hbp : bpOk r = true)
    (hs : (lookupCol "Sex" r).isSome = true)
    (hd : (lookupCol "Diet" r).isSome = true) :
    preprocess_row r F = .ok (F.map (fun c => (c, (pipelineVal r c).getD 0))) := by
  obtain ⟨sexv, hSex⟩ := Option.isSome_iff_exists.mp hs
  obtain ⟨dietv, hDiet⟩ := Option.isSome_iff_exists.mp hd
  obtain ⟨d1, hbps, hlook⟩ := bpStep_ok r hbp
  obtain ⟨d3, henc, hfin⟩ := encode_coerce_lookup r d1 sexv dietv hSex hDiet hlook
  have hfun : (fun c => (c, (lookupCol c (coerceStep d3)).getD (0 : ℚ))) =
      (fun c => (c, (pipelineVal r c).getD 0)) := funext fun c => by rw [hfin c]
  unfold preprocess_row
  rw [hbps]
  dsimp only []
  rw [henc]
  dsimp only []
  rw [alignStep_eq, hfun]

theorem bpStep_err (r : Record) (hbp : bpOk r = false) :
    bpStep (r.map (fun p => (p.1, Cell.str p.2))) = .error (.keyError "1") := by
  unfold bpOk at hbp
  rcases hBP : lookupCol "Blood Pressure" r with _ | v
  · rw [hBP] at hbp; cases hbp
  · rw [hBP] at hbp
    dsimp only [] at hbp
    unfold bpStep
    rw [lookupCol_map_snd, hBP]
    dsimp only [Option.map, cellAsStr]
    rcases hsp : (splitOnce v).2 with _ | t
    · rfl
    · rw [hsp] at hbp; simp at hbp

theorem preprocess_row_error_of_sex (r : Record) (F : List String)
    (hsex : lookupCol "Sex" r = none) :
    ∀ out, preprocess_row r F ≠ .ok out := by
  intro out h
  unfold preprocess_row at h
  rcases hbp : bpOk r with _ | _
  · rw [bpStep_err r hbp] at h
    cases h
  · obtain ⟨d1, hbps, hlook⟩ := bpStep_ok r hbp
    rw [hbps] at h
    dsimp only [] at h
    have hS : lookupCol "Sex" (dropCols idCols d1) = none := by
      rw [lookupCol_dropCols]
      have hni : ¬ "Sex" ∈ idCols := by simp [idCols]
      rw [if_neg hni, hlook]
      unfold bpView
      rcases lookupCol "Blood Pressure" r with _ | v <;> simp [hsex]
    unfold encodeStep at h
    rw [hS] at h
    cases h

theorem preprocess_row_error_of_diet (r : Record) (F : List String)
    (hdiet : lookupCol "Diet" r = none) :
    ∀ out, preprocess_row r F ≠ .ok out := by
  intro out h
  unfold preprocess_row at h
  rcases hbp : bpOk r with _ | _
  · rw [bpStep_err r hbp] at h
    cases h
  · obtain ⟨d1, hbps, hlook⟩ := bpStep_ok r hbp
    rw [hbps] at h
    dsimp only [] at h
    have hDView : bpView r "Diet" = none := by
      unfold bpView
      rcases lookupCol "Blood Pressure" r with _ | v <;> simp [hdiet]
    rcases hS : lookupCol "Sex" (dropCols idCols d1) with _ | sexCell
    · unfold encodeStep at h
      rw [hS] at h
      cases h
    · unfold encodeStep at h
      rw [hS] at h
      dsimp only [] at h
      have hD : lookupCol "Diet"
          (setCol "Sex_Male"
            (Cell.num (some (if lowerStr (cellAsStr sexCell) = "male" then 1 else 0)))
            (dropCols idCols d1)) = none := by
        rw [lookupCol_setCol]
        have h1 : ¬ "Diet" = "Sex_Male" := by simp
        rw [if_neg h1, lookupCol_dropCols]
        have h2 : ¬ "Diet" ∈ idCols := by simp [idCols]
        rw [if_neg h2, hlook, hDView]
      rw [hD] at h
      cases h

/-! ## The claims -/

/-- C2, counterexample: the claim quantifies over every raw record
("regardless of which columns the Raw Record contained"), but on the empty
record `preprocess_row` raises `KeyError: Sex` instead of returning a
feature vector. -/
theorem C2_counterexample :
    preprocess_row [] ["Age"] = .error (.keyError "Sex") ∧
      ∀ out, preprocess_row [] ["Age"] ≠ .ok out := by
  constructor
  · rfl
  · exact preprocess_row_error_of_sex [] ["Age"] rfl

/-- C2 (amended): for every raw record that contains the `Sex` and `Diet`
fields and whose `Blood Pressure` field, when present, contains a `/`,
`preprocess_row` returns a feature vector whose name sequence is exactly
the feature schema, in schema order, regardless of which other
columns the record carries. -/
theorem C2_keyset_is_schema (r : Record) (F : List String)
    (hs : (lookupCol "Sex" r).isSome = true)
    (hd : (lookupCol "Diet" r).isSome = true)
    (hbp : bpOk r = true) :
    (preprocess_row r F).map (fun out => out.map Prod.fst) = .ok F := by
  rw [preprocess_row_ok r F hbp hs hd]
  dsimp only [Except.map]
  have hid : List.map (Prod.fst ∘ fun c => (c, (pipelineVal r c).getD (0 : ℚ))) F =
      List.map id F := List.map_congr_left fun a _ => rfl
  rw [List.map_map, hid, List.map_id]

/-- C2 witness: a record with extra and missing columns still yields exactly
the schema `["Age", "Sex_Male"]`, in order. -/
theorem C2_witness :
    (preprocess_row
        [("Patient ID", "P1"), ("Sex", "Male"), ("Diet", "Average"),
         ("Blood Pressure", "120/80"), ("Note", "hello")]
        ["Age", "Sex_Male"]).map (fun out => out.map Prod.fst) =
      .ok ["Age", "Sex_Male"] :=
  C2_keyset_is_schema _ _ (by decide) (by decide) (by decide)

/-- C10: `preprocess_row` requires the `Sex` and `Diet` fields: a record
lacking either never returns a feature vector (the column access raises),
while the identifier columns and `Blood Pressure` may all be absent without
error. -/
theorem C10_sex_diet_required :
    (∀ r F out, lookupCol "Sex" r = none → preprocess_row r F ≠ .ok out) ∧
    (∀ r F out, lookupCol "Diet" r = none → preprocess_row r F ≠ .ok out) ∧
    (∀ r F, (lookupCol "Sex" r).isSome = true → (lookupCol "Diet" r).isSome = true →
      lookupCol "Blood Pressure" r = none →
      (∀ c, c ∈ idCols → lookupCol c r = none) →
      (preprocess_row r F).isOk = true) := by
  refine ⟨fun r F out h => preprocess_row_error_of_sex r F h out,
          fun r F out h => preprocess_row_error_of_diet r F h out,
          fun r F hs hd hbp _ => ?_⟩
  have hbp' : bpOk r = true := by unfold bpOk; rw [hbp]
  rw [preprocess_row_ok r F hbp' hs hd]
  rfl

/-- C10 witness: concrete failures for a missing `Sex` and a missing `Diet`
field, and a concrete success for a record with no identifier and no
Blood-Pressure column. -/
theorem C10_witness :
    preprocess_row [("Diet", "Average"), ("Age", "40")] ["Age"] ≠ .ok [("Age", 40)] ∧
    preprocess_row [("Sex", "Female"), ("Age", "40")] ["Age"] ≠ .ok [("Age", 40)] ∧
    (preprocess_row [("Sex", "Female"), ("Diet", "Average"), ("Age", "40")] ["Age"]).isOk = true :=
  ⟨C10_sex_diet_required.1 _ _ _ rfl,
   C10_sex_diet_required.2.1 _ _ _ rfl,
   C10_sex_diet_required.2.2 _ ["Age"] rfl rfl rfl (by decide)⟩

theorem preprocess_row_proj (r : Record) (F : List String) (c : String)
    (hbp : bpOk r = true) (hs : (lookupCol "Sex" r).isSome = true)
    (hd : (lookupCol "Diet" r).isSome = true) :
    (preprocess_row r F).map (fun out => lookupCol c out) =
      .ok (if c ∈ F then some ((pipelineVal r c).getD 0) else none) := by
  rw [preprocess_row_ok r F hbp hs hd]
  dsimp only [Except.map]
  rw [lookupCol_map_self]

/-- C3, counterexample: the claim quantifies over every raw record with
Blood Pressure "130/85", but a record that lacks the `Sex` field makes
`preprocess_row` raise `KeyError: Sex` instead of yielding the two
features. -/
theorem C3_counterexample :
    preprocess_row [("Blood Pressure", "130/85")] ["BP_Systolic", "BP_Diastolic"] =
      .error (.keyError "Sex") := rfl

/-- C3 (amended): for every raw record that contains `Sex` and `Diet` and
whose `Blood Pressure` value splits once on `/` into a left and a right
part, against a schema that contains `BP_Systolic` and `BP_Diastolic` and
not `Blood Pressure`, the output maps `BP_Systolic` to the parsed left
part, `BP_Diastolic` to the parsed right part, and has no
`Blood Pressure` key (so "130/85" gives 130 and 85). -/
theorem C3_bp_split (r : Record) (F : List String) (v s t : String)
    (hs : (lookupCol "Sex" r).isSome = true)
    (hd : (lookupCol "Diet" r).isSome = true)
    (hbpv : lookupCol "Blood Pressure" r = some v)
    (hsplit : splitOnce v = (s, some t))
    (hF1 : "BP_Systolic" ∈ F) (hF2 : "BP_Diastolic" ∈ F)
    (hF3 : ¬ "Blood Pressure" ∈ F) :
    (preprocess_row r F).map
        (fun out => (lookupCol "BP_Systolic" out, lookupCol "BP_Diastolic" out,
                     lookupCol "Blood Pressure" out)) =
      .ok (some ((toNumeric s).getD 0), some ((toNumeric t).getD 0), none) := by
  have hbp : bpOk r = true := by
    unfold bpOk
    rw [hbpv]
    dsimp only []
    rw [hsplit]
    rfl
  rw [preprocess_row_ok r F hbp hs hd]
  dsimp only [Except.map]
  rw [lookupCol_map_self, lookupCol_map_self, lookupCol_map_self,
      if_pos hF1, if_pos hF2, if_neg hF3]
  have h1 : pipelineVal r "BP_Systolic" = some ((toNumeric s).getD 0) := by
    unfold pipelineVal
    rw [hbpv]
    simp [idCols, hsplit]
  have h2 : pipelineVal r "BP_Diastolic" = some ((toNumeric t).getD 0) := by
    unfold pipelineVal
    rw [hbpv]
    simp [idCols, hsplit]
  rw [h1, h2]
  rfl

/-- C3 witness: the record with Blood Pressure "130/85" yields
BP_Systolic 130, BP_Diastolic 85 and no "Blood Pressure" key. -/
theorem C3_witness :
    (preprocess_row [("Sex", "Male"), ("Diet", "Healthy"), ("Blood Pressure", "130/85")]
        ["BP_Systolic", "BP_Diastolic"]).map
        (fun out => (lookupCol "BP_Systolic" out, lookupCol "BP_Diastolic" out,
                     lookupCol "Blood Pressure" out)) =
      .ok (some 130, some 85, none) :=
  C3_bp_split _ _ "130/85" "130" "85" (by decide) (by decide) (by decide) (by decide)
    (by decide) (by decide) (by decide)

/-- C4, counterexample: a Blood-Pressure value with no "/" — the very
example of a missing part — makes `preprocess_row` raise `KeyError: 1`
(the pandas expanded split has no column 1 on a one-row frame), rather than
producing the value 0. -/
theorem C4_counterexample :
    preprocess_row [("Sex", "Male"), ("Diet", "Average"), ("Blood Pressure", "135")]
        ["BP_Systolic", "BP_Diastolic"] = .error (.keyError "1") := rfl

/-- C4 (amended): every leftover field value that does not parse as a number
becomes feature value 0, a non-numeric part of a Blood-Pressure value that
does contain "/" becomes 0, and under the conditions in which no column
access raises (Sex and Diet present, Blood Pressure containing "/" when
present) `preprocess_row` always succeeds — but a Blood-Pressure value
with no "/" raises a `KeyError` (see the counterexample), so the original
"never raises" is false. -/
theorem C4_unparsable_defaults_zero :
    (∀ r F c v, (lookupCol "Sex" r).isSome = true → (lookupCol "Diet" r).isSome = true →
      bpOk r = true → lookupCol c r = some v → toNumeric v = none →
      ¬ c ∈ ["Patient ID", "Country", "Continent", "Hemisphere", "Sex", "Diet",
             "Sex_Male", "Diet_Healthy", "Diet_Unhealthy", "Blood Pressure",
             "BP_Systolic", "BP_Diastolic"] →
      c ∈ F →
      (preprocess_row r F).map (fun out => lookupCol c out) = .ok (some 0)) ∧
    (∀ r F v s t, (lookupCol "Sex" r).isSome = true → (lookupCol "Diet" r).isSome = true →
      lookupCol "Blood Pressure" r = some v → splitOnce v = (s, some t) →
      toNumeric t = none → "BP_Diastolic" ∈ F →
      (preprocess_row r F).map (fun out => lookupCol "BP_Diastolic" out) = .ok (some 0)) ∧
    (∀ r F, (lookupCol "Sex" r).isSome = true → (lookupCol "Diet" r).isSome = true →
      bpOk r = true → (preprocess_row r F).isOk = true) := by
  refine ⟨?_, ?_, ?_⟩
  · intro r F c v hs hd hbp hcv hnum hc hcF
    rw [preprocess_row_proj r F c hbp hs hd, if_pos hcF]
    simp only [List.mem_cons, List.not_mem_nil, or_false, not_or] at hc
    obtain ⟨h1, h2, h3, h4, h5, h6, h7, h8, h9, h10, h11, h12⟩ := hc
    have hsd : ¬ c ∈ ["Sex", "Diet"] := by simp [h5, h6]
    have hid : ¬ c ∈ idCols := by simp [idCols, h1, h2, h3, h4]
    unfold pipelineVal
    rw [if_neg hsd, if_neg h9, if_neg h8, if_neg h7, if_neg hid]
    rcases hBP : lookupCol "Blood Pressure" r with _ | bv
    · rw [hcv]
      simp [hnum]
    · dsimp only []
      rw [if_neg h10, if_neg h12, if_neg h11, hcv]
      simp [hnum]
  · intro r F v s t hs hd hbpv hsplit ht hF
    have hbp : bpOk r = true := by
      unfold bpOk
      rw [hbpv]
      dsimp only []
      rw [hsplit]
      rfl
    rw [preprocess_row_proj r F "BP_Diastolic" hbp hs hd, if_pos hF]
    have h2 : pipelineVal r "BP_Diastolic" = some 0 := by
      unfold pipelineVal
      rw [hbpv]
      simp [idCols, hsplit, ht]
    rw [h2]
    rfl
  · intro r F hs hd hbp
    rw [preprocess_row_ok r F hbp hs hd]
    rfl

/-- C4 witness: a free-text field becomes 0, a non-numeric diastolic part
becomes 0, and a well-formed record is processed without error. -/
theorem C4_witness :
    (preprocess_row [("Sex", "Male"), ("Diet", "Average"), ("Note", "free text")]
        ["Note"]).map (fun out => lookupCol "Note" out) = .ok (some 0) ∧
    (preprocess_row [("Sex", "Male"), ("Diet", "Average"), ("Blood Pressure", "130/oops")]
        ["BP_Diastolic"]).map (fun out => lookupCol "BP_Diastolic" out) = .ok (some 0) ∧
    (preprocess_row [("Sex", "Male"), ("Diet", "Average"), ("Age", "40")] ["Age"]).isOk = true :=
  ⟨C4_unparsable_defaults_zero.1 _ _ "Note" "free text" (by decide) (by decide) (by decide)
      (by decide) (by decide) (by decide) (by decide),
   C4_unparsable_defaults_zero.2.1 _ _ "130/oops" "130" "oops" (by decide) (by decide)
      (by decide) (by decide) (by decide) (by decide),
   C4_unparsable_defaults_zero.2.2 _ _ (by decide) (by decide) (by decide)⟩

theorem bpStep_infer_ok (r : Record) (v t : String)
    (hbpv : lookupCol "Blood Pressure" r = some v) (hnv : toNumeric v = none)
    (hsp : (splitOnce v).2 = some t) :
    bpStep (toOneRowTable r) = .ok (dropCols ["Blood Pressure"]
      (setCol "BP_Diastolic" (.num (toNumeric t))
        (setCol "BP_Systolic" (.num (toNumeric (splitOnce v).1)) (toOneRowTable r)))) := by
  have h0 : lookupCol "Blood Pressure" (toOneRowTable r) = some (inferCell v) := by
    unfold toOneRowTable
    rw [lookupCol_map_snd, hbpv]
    rfl
  have h1 : inferCell v = .str v := by
    unfold inferCell
    rw [hnv]
  unfold bpStep
  rw [h0, h1]
  dsimp only [cellAsStr]
  rw [hsp]

theorem bpStep_infer_err (r : Record) (v : String)
    (hbpv : lookupCol "Blood Pressure" r = some v) (hnv : toNumeric v = none)
    (hsp : (splitOnce v).2 = none) :
    bpStep (toOneRowTable r) = .error (.keyError "1") := by
  have h0 : lookupCol "Blood Pressure" (toOneRowTable r) = some (inferCell v) := by
    unfold toOneRowTable
    rw [lookupCol_map_snd, hbpv]
    rfl
  have h1 : inferCell v = .str v := by
    unfold inferCell
    rw [hnv]
  unfold bpStep
  rw [h0, h1]
  dsimp only [cellAsStr]
  rw [hsp]

/-- C1, counterexample: on the one-row table of the record
(Age 50, Sex Male, Diet Healthy), the training-path transformation
(`get_dummies` with `drop_first=True` drops the sole observed category of
each object column) produces only the column `Age`, while the scoring-path
transformation against the matching schema produces
`Age, Sex_Male, Diet_Healthy, Diet_Unhealthy` — different derived column
names, so the two paths are not the same transformation. -/
theorem C1_counterexample :
    (preprocess_row [("Age", "50"), ("Sex", "Male"), ("Diet", "Healthy")]
        ["Age", "Sex_Male", "Diet_Healthy", "Diet_Unhealthy"]).map
        (fun out => out.map Prod.fst) =
      .ok ["Age", "Sex_Male", "Diet_Healthy", "Diet_Unhealthy"] ∧
    (preprocess_health_data_one [("Age", "50"), ("Sex", "Male"), ("Diet", "Healthy")]).map
        (fun out => out.map Prod.fst) = .ok ["Age"] ∧
    (["Age", "Sex_Male", "Diet_Healthy", "Diet_Unhealthy"] : List String) ≠ ["Age"] :=
  ⟨rfl, rfl, by decide⟩

/-- C1 (amended): the two preprocessing paths share only the Blood-Pressure
transformation: on any record whose (non-numeric) Blood-Pressure value
they both process, the per-row path and the one-row training path assign
identical `BP_Systolic` and `BP_Diastolic` values (and raise the identical
`KeyError: 1` when the value has no "/"); their categorical encodings and
column sets differ (see the counterexample). -/
theorem C1_bp_features_agree (r : Record) (F : List String) (v : String)
    (hs : (lookupCol "Sex" r).isSome = true)
    (hd : (lookupCol "Diet" r).isSome = true)
    (hbpv : lookupCol "Blood Pressure" r = some v)
    (hnv : toNumeric v = none)
    (hF1 : "BP_Systolic" ∈ F) (hF2 : "BP_Diastolic" ∈ F) :
    (preprocess_row r F).map
        (fun out => (lookupCol "BP_Systolic" out, lookupCol "BP_Diastolic" out)) =
      (preprocess_health_data_one r).map
        (fun out => (lookupCol "BP_Systolic" out, lookupCol "BP_Diastolic" out)) := by
  rcases hsp : (splitOnce v).2 with _ | t
  · have hbf : bpOk r = false := by
      unfold bpOk
      rw [hbpv]
      dsimp only []
      rw [hsp]
      rfl
    unfold preprocess_row preprocess_health_data_one
    rw [bpStep_err r hbf, bpStep_infer_err r v hbpv hnv hsp]
  · have hbt : bpOk r = true := by
      unfold bpOk
      rw [hbpv]
      dsimp only []
      rw [hsp]
      rfl
    rw [preprocess_row_ok r F hbt hs hd]
    unfold preprocess_health_data_one
    rw [bpStep_infer_ok r v t hbpv hnv hsp]
    dsimp only [Except.map]
    rw [lookupCol_map_self, lookupCol_map_self, if_pos hF1, if_pos hF2]
    have hsys : pipelineVal r "BP_Systolic" = some ((toNumeric (splitOnce v).1).getD 0) := by
      unfold pipelineVal
      rw [hbpv]
      simp [idCols]
    have hdia : pipelineVal r "BP_Diastolic" = some ((toNumeric t).getD 0) := by
      unfold pipelineVal
      rw [hbpv]
      simp [idCols, hsp]
    rw [hsys, hdia]
    have hnotid1 : ¬ "BP_Systolic" ∈ idCols := by decide
    have hnotid2 : ¬ "BP_Diastolic" ∈ idCols := by decide
    have hg1 : lookupCol "BP_Systolic"
        (dropCols idCols (dropCols ["Blood Pressure"]
          (setCol "BP_Diastolic" (Cell.num (toNumeric t))
            (setCol "BP_Systolic" (Cell.num (toNumeric (splitOnce v).1)) (toOneRowTable r))))) =
        some (Cell.num (toNumeric (splitOnce v).1)) := by
      rw [lookupCol_dropCols, if_neg hnotid1, lookupCol_dropCols, lookupCol_setCol,
          lookupCol_setCol]
      simp
    have hg2 : lookupCol "BP_Diastolic"
        (dropCols idCols (dropCols ["Blood Pressure"]
          (setCol "BP_Diastolic" (Cell.num (toNumeric t))
            (setCol "BP_Systolic" (Cell.num (toNumeric (splitOnce v).1)) (toOneRowTable r))))) =
        some (Cell.num (toNumeric t)) := by
      rw [lookupCol_dropCols, if_neg hnotid2, lookupCol_dropCols, lookupCol_setCol]
      simp
    rw [lookupCol_getDummies_num _ _ _ hg1, lookupCol_getDummies_num _ _ _ hg2]
    rfl

/-- C1 witness: on a record with Blood Pressure "130/85" both paths produce
BP_Systolic 130 and BP_Diastolic 85. -/
theorem C1_witness :
    (preprocess_row [("Sex", "Male"), ("Diet", "Healthy"), ("Blood Pressure", "130/85")]
        ["BP_Systolic", "BP_Diastolic"]).map
        (fun out => (lookupCol "BP_Systolic" out, lookupCol "BP_Diastolic" out)) =
      (preprocess_health_data_one
          [("Sex", "Male"), ("Diet", "Healthy"), ("Blood Pressure", "130/85")]).map
        (fun out => (lookupCol "BP_Systolic" out, lookupCol "BP_Diastolic" out)) :=
  C1_bp_features_agree _ _ "130/85" (by decide) (by decide) (by decide) (by decide)
    (by decide) (by decide)

/-- C5: an entity present in the historical table but absent from the
simulated-vitals table never appears in the combined output: the join is
driven from the aggregated-vitals side, whose groups come only from the
simulated table. -/
theorem C5_hist_only_entity_absent (sim : List SimRow) (hist : List Record) (pid : String)
    (hhist : ∃ h ∈ hist, lookupCol "Patient ID" h = some pid)
    (hsim : ¬ pid ∈ sim.map (fun srow => srow.patientId)) :
    ¬ pid ∈ (finalJoin sim hist).map (fun row => row.1.patientId) := by
  intro hmem
  rw [List.mem_map] at hmem
  obtain ⟨row, hrow, hpid⟩ := hmem
  rw [finalJoin, List.mem_flatMap] at hrow
  obtain ⟨q, hq, hrowq⟩ := hrow
  have hq' : q ∈ sim.map (fun srow => srow.patientId) := by
    have := List.mem_dedup.mp hq
    simpa [aggIds] using List.mem_dedup.mp hq
  have hrq : row.1.patientId = q := by
    dsimp only [] at hrowq
    rcases hfl : (histClean hist).filter
        (fun h => decide (lookupCol "Patient ID" h = some q)) with _ | ⟨m, ms⟩
    · rw [hfl] at hrowq
      dsimp only [] at hrowq
      rw [List.mem_singleton] at hrowq
      rw [hrowq]
      rfl
    · rw [hfl] at hrowq
      dsimp only [] at hrowq
      rw [List.mem_map] at hrowq
      obtain ⟨mm, _, hmm⟩ := hrowq
      rw [← hmm]
      rfl
  rw [hrq] at hpid
  rw [hpid] at hq'
  exact hsim hq'

/-- C5 witness: patient "B" exists only in the historical table and is
absent from the joined output built from simulated patient "A". -/
theorem C5_witness :
    ¬ "B" ∈ (finalJoin [⟨"A", 60, 100, 60, 8, 1⟩]
        [[("Patient ID", "B"), ("Age", "50")]]).map (fun row => row.1.patientId) :=
  C5_hist_only_entity_absent _ _ "B"
    ⟨[("Patient ID", "B"), ("Age", "50")], by decide, by decide⟩ (by decide)

/-- C6: the weekly heart-rate feature is the HALF_UP-rounded mean of the
readings of the entity: the 7 readings [60,70,80,90,100,110,60] (mean 570/7 ≈
81.43) aggregate to 81, and the readings [60,103] (mean 81.5) aggregate to
82 even though truncating that mean would give 81 — so the mean is
rounded to the nearest integer, not truncated. -/
theorem C6_heart_rate_rounded_mean :
    (aggRow [⟨"P1", 60, 120, 80, 8, 1⟩, ⟨"P1", 70, 120, 80, 8, 1⟩,
             ⟨"P1", 80, 120, 80, 8, 1⟩, ⟨"P1", 90, 120, 80, 8, 1⟩,
             ⟨"P1", 100, 120, 80, 8, 1⟩, ⟨"P1", 110, 120, 80, 8, 1⟩,
             ⟨"P1", 60, 120, 80, 8, 1⟩] "P1").heartRate = 81 ∧
    (aggRow [⟨"P1", 60, 120, 80, 8, 1⟩, ⟨"P1", 103, 120, 80, 8, 1⟩] "P1").heartRate = 82 ∧
    (⌊listMean [(60 : ℚ), 103]⌋ = 81 ∧ roundHalfUp (listMean [(60 : ℚ), 103]) = 82) := by
  have hm7 : listMean [(60 : ℚ), 70, 80, 90, 100, 110, 60] = 570 / 7 := by
    norm_num [listMean]
  have hm2 : listMean [(60 : ℚ), 103] = 163 / 2 := by
    norm_num [listMean]
  have hfl7 : ⌊(570 / 7 : ℚ) + 1 / 2⌋ = 81 := by
    rw [Int.floor_eq_iff] <;> norm_num
  have hfl2 : ⌊(163 / 2 : ℚ) + 1 / 2⌋ = 82 := by
    rw [Int.floor_eq_iff] <;> norm_num
  have hfl2t : ⌊(163 / 2 : ℚ)⌋ = 81 := by
    rw [Int.floor_eq_iff] <;> norm_num
  refine ⟨?_, ?_, ?_, ?_⟩
  · show (roundHalfUp (listMean (List.map (fun s => s.heartRate) (groupOf _ "P1"))) : ℚ) = 81
    norm_num [groupOf, List.filter, hm7, roundHalfUp, hfl7]
  · show (roundHalfUp (listMean (List.map (fun s => s.heartRate) (groupOf _ "P1"))) : ℚ) = 82
    norm_num [groupOf, List.filter, hm2, roundHalfUp, hfl2]
  · rw [hm2, hfl2t]
  · rw [hm2]
    unfold roundHalfUp
    rw [if_pos (by norm_num), hfl2]

/-- C7: a scored row is labeled HIGH_RISK precisely when its score strictly
exceeds the alert threshold: score 0.50 against the default threshold 0.45
gives HIGH_RISK, score exactly 0.45 gives LOW_RISK. -/
theorem C7_risk_status_strict :
    riskStatus (50 / 100) ALERT_THRESHOLD = "HIGH_RISK" ∧
    riskStatus (45 / 100) ALERT_THRESHOLD = "LOW_RISK" ∧
    ∀ score : ℚ, (riskStatus score ALERT_THRESHOLD = "HIGH_RISK" ↔ ALERT_THRESHOLD < score) := by
  refine ⟨?_, ?_, fun score => ?_⟩
  · unfold riskStatus ALERT_THRESHOLD
    rw [if_pos (by norm_num)]
  · unfold riskStatus ALERT_THRESHOLD
    rw [if_neg (by norm_num)]
  unfold riskStatus
  by_cases h : ALERT_THRESHOLD < score
  · simp [h]
  · simp [h]

/-- C8: when no CSV-suffixed object exists under the processed prefix the
handler returns the structured 404-style response instead of raising; when
the feature-list object is absent the resource-not-found failure
propagates with no cached-default fallback, terminating the run. -/
theorem C8_missing_resources :
    (∀ env : Env, env.listing.filter (fun k => strEndsWith k ".csv") = [] →
      env.featureListBody ≠ none →
      lambda_handler env = .ok ⟨.notFound, [], []⟩) ∧
    (∀ env : Env, env.featureListBody = none →
      lambda_handler env = .error (.noSuchKey FEATURE_LIST_KEY)) := by
  constructor
  · intro env hcsv hfl
    rcases hb : env.featureListBody with _ | body
    · exact absurd hb hfl
    · unfold lambda_handler
      rw [hb]
      unfold load_feature_list
      dsimp only []
      rw [hcsv]
  · intro env hfl
    unfold lambda_handler
    rw [hfl]
    unfold load_feature_list
    dsimp only []

/-- C8 witness: a listing with no `.csv` key yields the 404 response; an
absent feature list yields the propagated NoSuchKey error. -/
theorem C8_witness :
    lambda_handler ⟨some "Age", ["processed/readme.txt"], fun _ => [], fun _ => "", true⟩ =
      .ok ⟨.notFound, [], []⟩ ∧
    lambda_handler ⟨none, ["processed/a.csv"], fun _ => [], fun _ => "", true⟩ =
      .error (.noSuchKey FEATURE_LIST_KEY) :=
  ⟨C8_missing_resources.1 _ (by decide) (by simp),
   C8_missing_resources.2 _ rfl⟩

/-- C9: whenever a run returns a summary with at least one alert, the
handler made exactly one `sns.publish` call, carrying the full flagged
list; and for either outcome of that publish call (success or caught
failure) the run completes with the same structured summary — publish
failure is never fatal. -/
theorem C9_single_notification (env : Env) (n alerts : ℕ) (details : List Alert)
    (scores : List ℚ) (out : RunOutput)
    (h : lambda_handler env = .ok out)
    (hr : out.response = .summary n alerts details scores)
    (ha : 0 < alerts) :
    out.snsAttempts = [(alerts, details)] ∧
    ∀ b : Bool,
      lambda_handler ⟨env.featureListBody, env.listing, env.csvTable, env.endpoint, b⟩ =
        .ok ⟨.summary n alerts details scores, [(alerts, details)],
             if b then [(alerts, details)] else []⟩ := by
  unfold lambda_handler at h ⊢
  rcases hfl : load_feature_list env.featureListBody with e | expected
  · rw [hfl] at h
    cases h
  · rw [hfl] at h
    dsimp only [] at h
    rcases hcsv : env.listing.filter (fun k => strEndsWith k ".csv") with _ | ⟨k, ks⟩
    · rw [hcsv] at h
      dsimp only [] at h
      injection h with h'
      rw [← h'] at hr
      cases hr
    · rw [hcsv] at h
      dsimp only [] at h
      rcases hsc : scoreRows env.endpoint expected
          ((env.csvTable k).take MAX_ROWS_TO_PROCESS) with e | acc
      · rw [hsc] at h
        cases h
      · rw [hsc] at h
        dsimp only [] at h
        injection h with h'
        rw [← h'] at hr
        dsimp only [] at hr
        injection hr with h1 h2 h3 h4
        constructor
        · rw [← h', ← h2, ← h3]
          dsimp only []
          rw [if_pos (h2 ▸ ha)]
        · intro b
          dsimp only []
          rw [hfl]
          dsimp only []
          rw [hcsv]
          dsimp only []
          rw [hsc]
          dsimp only []
          rw [h1, h2, h3, h4, if_pos ha]

theorem scoreRows_one (ep : List ℚ → String) (expected : List String) (row : Record)
    (res : List ℚ × List Prediction × List Alert)
    (h : scoreOne ep expected ([], [], []) (0, row) = .ok res) :
    scoreRows ep expected [row] = .ok res := by
  unfold scoreRows
  have he : ([row].enum) = [(0, row)] := rfl
  rw [he]
  simp only [List.foldlM_cons, List.foldlM_nil, h]
  rfl

/-- C9 witness: on a one-row file whose score 2 exceeds the threshold,
the run with a failing publish call still returns the same summary, with
exactly one attempted notification listing the flagged patient. -/
theorem C9_witness :
    lambda_handler ⟨some "Age\nSex_Male", ["processed/a.csv"],
        fun _ => [[("Patient ID", "P1"), ("Age", "60"), ("Sex", "Male"), ("Diet", "Healthy")]],
        fun _ => "2", false⟩ =
      .ok ⟨.summary 1 1 [⟨"P1", 2⟩] [2], [(1, [⟨"P1", 2⟩])], []⟩ := by
  have hp6 : pyRound 2 6 = 2 := by
    unfold pyRound roundHalfEven
    norm_num
  have hp3 : pyRound 2 3 = 2 := by
    unfold pyRound roundHalfEven
    norm_num
  have hrs : riskStatus 2 ALERT_THRESHOLD = "HIGH_RISK" := by
    unfold riskStatus ALERT_THRESHOLD
    rw [if_pos (by norm_num)]
  have hso : scoreOne (fun _ => "2") ["Age", "Sex_Male"] ([], [], [])
      (0, [("Patient ID", "P1"), ("Age", "60"), ("Sex", "Male"), ("Diet", "Healthy")]) =
      .ok ([2], [⟨"P1", 2, "HIGH_RISK"⟩], [⟨"P1", 2⟩]) := by
    unfold scoreOne
    rw [show preprocess_row
        [("Patient ID", "P1"), ("Age", "60"), ("Sex", "Male"), ("Diet", "Healthy")]
        ["Age", "Sex_Male"] = .ok [("Age", 60), ("Sex_Male", 1)] from rfl]
    dsimp only []
    rw [if_neg (by decide), show toNumeric "2" = some 2 from rfl]
    dsimp only []
    rw [if_pos (show ALERT_THRESHOLD < 2 by unfold ALERT_THRESHOLD; norm_num)]
    rw [hp6, hp3, hrs]
    rfl
  have hsc : scoreRows (fun _ => "2") ["Age", "Sex_Male"]
      [[("Patient ID", "P1"), ("Age", "60"), ("Sex", "Male"), ("Diet", "Healthy")]] =
      .ok ([2], [⟨"P1", 2, "HIGH_RISK"⟩], [⟨"P1", 2⟩]) := scoreRows_one _ _ _ _ hso
  have h : lambda_handler ⟨some "Age\nSex_Male", ["processed/a.csv"],
      fun _ => [[("Patient ID", "P1"), ("Age", "60"), ("Sex", "Male"), ("Diet", "Healthy")]],
      fun _ => "2", true⟩ =
      .ok ⟨.summary 1 1 [⟨"P1", 2⟩] [2], [(1, [⟨"P1", 2⟩])], [(1, [⟨"P1", 2⟩])]⟩ := by
    unfold lambda_handler
    rw [show load_feature_list (some "Age\nSex_Male") = .ok ["Age", "Sex_Male"] from rfl]
    dsimp only []
    rw [show (List.filter (fun k => strEndsWith k ".csv") ["processed/a.csv"]) =
        ["processed/a.csv"] from rfl]
    dsimp only []
    rw [show (([[("Patient ID", "P1"), ("Age", "60"), ("Sex", "Male"),
        ("Diet", "Healthy")]] : List Record).take MAX_ROWS_TO_PROCESS) =
        [[("Patient ID", "P1"), ("Age", "60"), ("Sex", "Male"), ("Diet", "Healthy")]] from rfl]
    rw [hsc]
    rfl
  exact (C9_single_notification _ 1 1 [⟨"P1", 2⟩] [2] _ h rfl (by decide)).2 false
